import Mathlib

/-!
Verification development for the PID issuer's credential formatting and
delivery engine (`app/formatter_func.py` and `app/route_eidasnode.py`).

The Python code is shallowly embedded: dictionaries become association
lists, Python exceptions become constructors of `PyErr`, and fallible code
returns `Except PyErr`.  External primitive libraries (cbor2, base64,
pymdoccbor, sd_jwt, cryptography) are not part of the repository; where a
claim depends on their behaviour the model follows the specification's
description of that behaviour, and the relevant doc comment says so.
-/

/-- Errors.  The first group models the untyped Python exceptions the code
can actually raise; the second group models the typed error kinds named by
the specification (`MissingDataError`, `MalformedCredentialError`,
`UnsupportedCurveError`, `IncompleteAttributeSetError`).  The typed kinds
are needed to state the specification's error-handling claims; none of the
embedded functions ever produces them, mirroring the source, where no such
exception classes exist. -/
inductive PyErr where
  | keyError : String → PyErr
  | indexError : PyErr
  | typeError : PyErr
  | attributeError : PyErr
  | valueError : String → PyErr
  | missingDataError : PyErr
  | malformedCredentialError : PyErr
  | unsupportedCurveError : PyErr
  | incompleteAttributeSetError : PyErr
deriving DecidableEq, Repr

/-- CBOR-level values, as produced by `cbor2.loads`.  Maps are association
lists with string keys (the only key type the embedded code uses). -/
inductive CBOR where
  | str : String → CBOR
  | int : Int → CBOR
  | bool : Bool → CBOR
  | bytes : List Nat → CBOR
  | tag : Nat → CBOR → CBOR
  | arr : List CBOR → CBOR
  | map : List (String × CBOR) → CBOR

/-- First-match association-list lookup: Python `d[k]` / `d.get(k)` on a
dict with string keys. -/
def pyFind {α : Type} (l : List (String × α)) (k : String) : Option α :=
  match l with
  | [] => none
  | (k', v) :: rest => if k' = k then some v else pyFind rest k

/-- Python `v[k]` on a decoded CBOR value: `KeyError` when the key is
absent, `TypeError` when the value is not a dict. -/
def CBOR.sub (v : CBOR) (k : String) : Except PyErr CBOR :=
  match v with
  | .map kvs =>
    (match pyFind kvs k with
     | some x => Except.ok x
     | none => Except.error (PyErr.keyError k))
  | _ => Except.error PyErr.typeError

/-- Python `v[i]` on a decoded CBOR value: `IndexError` when out of range,
`TypeError` when the value is not a list. -/
def CBOR.idx (v : CBOR) (i : Nat) : Except PyErr CBOR :=
  match v with
  | .arr xs =>
    (match xs.get? i with
     | some x => Except.ok x
     | none => Except.error PyErr.indexError)
  | _ => Except.error PyErr.typeError

/-- The namespace `mdocFormatter` requires (`formatter_func.py` line 70). -/
def pidNS : String := "eu.europa.ec.eudiw.pid.1"

/-- The element-identifier allowlist of `cbor2elems` line 114: exactly
`birth_date`, `expiry_date` and `issuance_date` are treated as
calendar-date-tagged values. -/
def isDateId (id : String) : Bool :=
  id == "birth_date" || id == "expiry_date" || id == "issuance_date"

/-- Modelled from the spec: one issuer-signed item of the mdoc, as built
by the external `pymdoccbor` library (`MdocCborIssuer.new`): a CBOR tag
whose content is the record {digestID, random, elementIdentifier,
elementValue}, where `random` is the per-element protection salt and
date-valued elements (birth date, issuance date, expiry date) are wrapped
in the calendar-date tag 1004.  Tag-24 byte nesting is modelled
structurally (the encoded item appears decoded inside the tag). -/
def encodeItem (rnd : String → String → List Nat) (ns : String) (i : Nat)
    (id : String) (v : CBOR) : CBOR :=
  CBOR.tag 24 (CBOR.map [
    ("digestID", CBOR.int (Int.ofNat i)),
    ("random", CBOR.bytes (rnd ns id)),
    ("elementIdentifier", CBOR.str id),
    ("elementValue", if isDateId id then CBOR.tag 1004 v else v)])

/-- Modelled from the spec: the issuer-signed item list of one namespace,
with sequential digest identifiers. -/
def encodeItems (rnd : String → String → List Nat) (ns : String) :
    Nat → List (String × CBOR) → List CBOR
  | _, [] => []
  | i, (id, v) :: rest => encodeItem rnd ns i id v :: encodeItems rnd ns (i + 1) rest

/-- Modelled from the spec: the namespace map of the issuer-signed
structure. -/
def encodeNss (rnd : String → String → List Nat) :
    List (String × List (String × CBOR)) → List (String × CBOR)
  | [] => []
  | (ns, elems) :: rest => (ns, CBOR.arr (encodeItems rnd ns 0 elems)) :: encodeNss rnd rest

/-- Fuel-driven worker for `natToBytesBE` (the fuel keeps the recursion
structural so that proofs can evaluate it). -/
def natToBytesBEAux : Nat → Nat → List Nat
  | 0, _ => []
  | fuel + 1, n => if n = 0 then [] else natToBytesBEAux fuel (n / 256) ++ [n % 256]

/-- Big-endian minimal byte encoding, Python's
`n.to_bytes((n.bit_length() + 7) // 8, 'big')` (empty for zero). -/
def natToBytesBE (n : Nat) : List Nat := natToBytesBEAux n n

/-- `mdocFormatter` (`formatter_func.py` lines 48-96).  The key file
loading is replaced by the already-extracted private scalar `privD`
(`private_key.private_numbers().private_value`); the per-element random
salts drawn inside the external library are the explicit argument `rnd`.
The function first builds the validity window from
`data["eu.europa.ec.eudiw.pid.1"]` — a plain subscript, so a missing
namespace or date raises `KeyError` — and then signs and serializes the
document via `MdocCborIssuer` (modelled from the spec: the resulting CBOR
carries one document with the namespace-partitioned issuer-signed items;
the COSE signature bytes and base64url serialization, which `cbor2elems`
inverts, are not further modelled). -/
def mdocFormatter (privD : Nat) (rnd : String → String → List Nat)
    (data : List (String × List (String × CBOR))) (doctype : String)
    (devicePublickey : String) : Except PyErr CBOR :=
  match pyFind data pidNS with
  | none => Except.error (PyErr.keyError pidNS)
  | some pid =>
    match pyFind pid "issuance_date" with
    | none => Except.error (PyErr.keyError "issuance_date")
    | some _ =>
      match pyFind pid "expiry_date" with
      | none => Except.error (PyErr.keyError "expiry_date")
      | some _ =>
        Except.ok (CBOR.map [
          ("version", CBOR.str "1.0"),
          ("documents", CBOR.arr [CBOR.map [
            ("docType", CBOR.str doctype),
            ("issuerSigned", CBOR.map [
              ("nameSpaces", CBOR.map (encodeNss rnd data)),
              ("issuerAuth", CBOR.map [
                ("signedScalar", CBOR.bytes (natToBytesBE privD)),
                ("deviceKeyInfo", CBOR.str devicePublickey)])])]]),
          ("status", CBOR.int 0)])

/-- One element of `cbor2elems`'s inner loop (`formatter_func.py` lines
111-117): `e` must be a CBORTag (`e.value`, otherwise `AttributeError`),
its content decodes to the issuer-signed item, and for the three
date-element identifiers the value's tag wrapper is unwrapped
(`val['elementValue'].value`, `AttributeError` if the value is not a
tag). -/
def decodeElem (e : CBOR) : Except PyErr (CBOR × CBOR) :=
  match e with
  | .tag _ val =>
    (match val.sub "elementIdentifier" with
     | .error err => Except.error err
     | .ok idv =>
       match val.sub "elementValue" with
       | .error err => Except.error err
       | .ok ev =>
         if (match idv with
             | CBOR.str s => isDateId s
             | _ => false) then
           match ev with
           | .tag _ inner => Except.ok (idv, inner)
           | _ => Except.error PyErr.attributeError
         else Except.ok (idv, ev))
  | _ => Except.error PyErr.attributeError

/-- The element list of one namespace, decoded in order. -/
def decodeElems : List CBOR → Except PyErr (List (CBOR × CBOR))
  | [] => Except.ok []
  | e :: rest =>
    match decodeElem e with
    | .error err => Except.error err
    | .ok p =>
      match decodeElems rest with
      | .error err => Except.error err
      | .ok r => Except.ok (p :: r)

/-- The namespace loop of `cbor2elems` (lines 109-118): iterating a
namespace value that is not a list is a `TypeError`. -/
def decodeNss : List (String × CBOR) → Except PyErr (List (String × List (CBOR × CBOR)))
  | [] => Except.ok []
  | (n, es) :: rest =>
    match es with
    | CBOR.arr xs =>
      (match decodeElems xs with
       | .error err => Except.error err
       | .ok l =>
         match decodeNss rest with
         | .error err => Except.error err
         | .ok r => Except.ok ((n, l) :: r))
    | _ => Except.error PyErr.typeError

/-- `cbor2elems` (`formatter_func.py` lines 99-119).  The argument is the
CBOR value obtained from `cbor2.decoder.loads(base64.urlsafe_b64decode(mdoc))`
(those two external decodes, which raise their own untyped `binascii.Error`
and `CBORDecodeError` on undecodable input, are not further modelled).
The subscript chain `['documents'][0]['issuerSigned']['nameSpaces']`
raises plain `KeyError`/`IndexError`/`TypeError` on structurally invalid
input, and `namespaces.keys()` on a non-dict raises `AttributeError`. -/
def cbor2elems (mdoc : CBOR) : Except PyErr (List (String × List (CBOR × CBOR))) :=
  match mdoc.sub "documents" with
  | .error err => Except.error err
  | .ok docs =>
    match docs.idx 0 with
    | .error err => Except.error err
    | .ok d0 =>
      match d0.sub "issuerSigned" with
      | .error err => Except.error err
      | .ok isg =>
        match isg.sub "nameSpaces" with
        | .error err => Except.error err
        | .ok nss =>
          match nss with
          | CBOR.map kvs => decodeNss kvs
          | _ => Except.error PyErr.attributeError

/-- Days of each month as checked by `datetime`: the date constructed by
`strptime` must be a real calendar date (leap years included). -/
def monthLen (y m : Nat) : Nat :=
  if m = 2 then (if (y % 4 = 0 && y % 100 != 0) || y % 400 = 0 then 29 else 28)
  else if m = 4 || m = 6 || m = 9 || m = 11 then 30
  else 31

/-- Split a character list at every dash: the dash-separated fields of
the candidate date string (the `-` literals of the `%Y-%m-%d` format). -/
def splitDash : List Char → List (List Char)
  | [] => [[]]
  | x :: xs =>
    match splitDash xs with
    | [] => [[]]
    | g :: gs => if x = '-' then [] :: g :: gs else (x :: g) :: gs

/-- Is the character an ASCII digit. -/
def isDigitCh (c : Char) : Bool := 48 ≤ c.toNat && c.toNat ≤ 57

/-- Numeric value of a nonempty all-digit character group; `none` when the
group contains a non-digit or is empty. -/
def digitsVal (cs : List Char) : Option Nat :=
  if cs ≠ [] ∧ cs.all isDigitCh then
    some (cs.foldl (fun acc c => acc * 10 + (c.toNat - 48)) 0)
  else none

/-- `datetime.datetime.strptime(date, '%Y-%m-%d')`: a four-digit year, a
one- or two-digit month in 1..12, a one- or two-digit day valid for that
month, nothing else in the string; year 0000 is below `datetime.MINYEAR`.
Any mismatch raises `ValueError`. -/
def parseDate (s : String) : Except PyErr (Nat × Nat × Nat) :=
  match splitDash s.data with
  | [ys, ms, ds] =>
    (match digitsVal ys, digitsVal ms, digitsVal ds with
     | some y, some m, some d =>
       if ys.length = 4 ∧ 1 ≤ ms.length ∧ ms.length ≤ 2 ∧ 1 ≤ ds.length ∧ ds.length ≤ 2
          ∧ 1 ≤ y ∧ 1 ≤ m ∧ m ≤ 12 ∧ 1 ≤ d ∧ d ≤ monthLen y m
       then Except.ok (y, m, d) else Except.error (PyErr.valueError s)
     | _, _, _ => Except.error (PyErr.valueError s))
  | _ => Except.error (PyErr.valueError s)

/-- Signed count of days from 1970-01-01 to the given proleptic Gregorian
calendar date (civil-to-days conversion); this is the "day-granularity
epoch integer" of the specification. -/
def daysFromCivil (y m d : Nat) : Int :=
  let yy := if m ≤ 2 then y - 1 else y
  let era := yy / 400
  let yoe := yy % 400
  let mp := if m ≤ 2 then m + 9 else m - 3
  let doy := (153 * mp + 2) / 5 + d - 1
  let doe := yoe * 365 + yoe / 4 - yoe / 100 + doy
  (era * 146097 + doe : Int) - 719468

/-- `DatestringFormatter` (`formatter_func.py` lines 288-294).  The parsed
datetime is naive, so `date_objectiat.timestamp()` interprets midnight of
that date in the host's local timezone: it returns
`daysFromCivil(d) * 86400 - tz` seconds, where `tz` is the host's UTC
offset (in seconds, east positive, DST included) in effect at that local
midnight.  `int(x)` truncates toward zero, i.e. `Int.tdiv`. -/
def DatestringFormatter (tz : Int) (s : String) : Except PyErr Int :=
  match parseDate s with
  | .error err => Except.error err
  | .ok (y, m, d) => Except.ok (Int.tdiv (daysFromCivil y m d * 86400 - tz) 86400)

/-- The standard base64 alphabet (RFC 4648 §4). -/
def b64Alphabet : List Char :=
  "ABCDEFGHIJKLMNOPQRSTUVWXYZabcdefghijklmnopqrstuvwxyz0123456789+/".toList

/-- The URL-safe base64 alphabet (RFC 4648 §5). -/
def b64urlAlphabet : List Char :=
  "ABCDEFGHIJKLMNOPQRSTUVWXYZabcdefghijklmnopqrstuvwxyz0123456789-_".toList

/-- Base64-encode a byte list with the given alphabet, with `=` padding;
the result is the ASCII byte list the Python `base64` encoders return. -/
def b64encodeWith (alpha : List Char) : List Nat → List Nat
  | [] => []
  | [a] =>
    [(alpha.getD (a / 4) '?').toNat, (alpha.getD (a % 4 * 16) '?').toNat,
     '='.toNat, '='.toNat]
  | [a, b] =>
    [(alpha.getD (a / 4) '?').toNat, (alpha.getD (a % 4 * 16 + b / 16) '?').toNat,
     (alpha.getD (b % 16 * 4) '?').toNat, '='.toNat]
  | a :: b :: c :: rest =>
    (alpha.getD (a / 4) '?').toNat ::
    (alpha.getD (a % 4 * 16 + b / 16) '?').toNat ::
    (alpha.getD (b % 16 * 4 + c / 64) '?').toNat ::
    (alpha.getD (c % 64) '?').toNat :: b64encodeWith alpha rest

/-- Python `base64.b64encode`: bytes to ASCII bytes. -/
def b64encodeBytes (bs : List Nat) : List Nat := b64encodeWith b64Alphabet bs

/-- Python `base64.urlsafe_b64encode`: bytes to ASCII bytes. -/
def b64urlencodeBytes (bs : List Nat) : List Nat := b64encodeWith b64urlAlphabet bs

/-- Reassemble bytes from a list of 6-bit values (the core of base64
decoding; trailing groups shorter than four values come from `=`
padding). -/
def b64groups : List Nat → List Nat
  | a :: b :: c :: d :: rest =>
    (a * 4 + b / 16) :: (b % 16 * 16 + c / 4) :: (c % 4 * 64 + d) :: b64groups rest
  | [a, b] => [a * 4 + b / 16]
  | [a, b, c] => [a * 4 + b / 16, b % 16 * 16 + c / 4]
  | _ => []

/-- Python `base64.urlsafe_b64decode` on a string: characters outside the
URL-safe alphabet (including `=` padding) are discarded and the remaining
6-bit values are packed into bytes.  (On inputs whose valid-character
count is not a full padding group the real decoder raises
`binascii.Error`; the delivery claims only apply it to well-formed
base64url text.) -/
def b64urldecodeStr (s : String) : List Nat :=
  b64groups (s.toList.filterMap (fun c =>
    match b64urlAlphabet.findIdx? (fun a => a = c) with
    | some i => some i
    | none => none))

/-- Bytes-to-string `.decode('utf-8')` for ASCII byte lists. -/
def strOfAscii (bs : List Nat) : String := String.mk (bs.map Char.ofNat)

/-- Truncation to a 32-bit word. -/
def w32 (n : Nat) : Nat := n % 4294967296

/-- 32-bit right rotation. -/
def rotr (r x : Nat) : Nat := w32 (x / 2 ^ r + x % 2 ^ r * 2 ^ (32 - r))

/-- SHA-256 round constants. -/
def shaK : List Nat :=
  [1116352408, 1899447441, 3049323471, 3921009573, 961987163,
   1508970993, 2453635748, 2870763221, 3624381080, 310598401,
   607225278, 1426881987, 1925078388, 2162078206, 2614888103,
   3248222580, 3835390401, 4022224774, 264347078, 604807628,
   770255983, 1249150122, 1555081692, 1996064986, 2554220882,
   2821834349, 2952996808, 3210313671, 3336571891, 3584528711,
   113926993, 338241895, 666307205, 773529912, 1294757372,
   1396182291, 1695183700, 1986661051, 2177026350, 2456956037,
   2730485921, 2820302411, 3259730800, 3345764771, 3516065817,
   3600352804, 4094571909, 275423344, 430227734, 506948616,
   659060556, 883997877, 958139571, 1322822218, 1537002063,
   1747873779, 1955562222, 2024104815, 2227730452, 2361852424,
   2428436474, 2756734187, 3204031479, 3329325298]

/-- SHA-256 initial hash state. -/
def shaH0 : List Nat :=
  [1779033703, 3144134277, 1013904242, 2773480762, 1359893119,
   2600822924, 528734635, 1541459225]

/-- SHA-256 padding: append 0x80, zero bytes to 56 mod 64, then the
bit length as an eight-byte big-endian integer. -/
def shaPad (msg : List Nat) : List Nat :=
  let l := msg.length
  let zeros := (64 - (l + 9) % 64) % 64
  msg ++ [0x80] ++ List.replicate zeros 0 ++
    [w32 (l * 8 / 2 ^ 56) % 256, l * 8 / 2 ^ 48 % 256, l * 8 / 2 ^ 40 % 256, l * 8 / 2 ^ 32 % 256,
     l * 8 / 2 ^ 24 % 256, l * 8 / 2 ^ 16 % 256, l * 8 / 2 ^ 8 % 256, l * 8 % 256]

/-- Pack bytes into big-endian 32-bit words. -/
def bytesToWords : List Nat → List Nat
  | a :: b :: c :: d :: rest => (a * 16777216 + b * 65536 + c * 256 + d) :: bytesToWords rest
  | _ => []

/-- Extend a 16-word block to the 64-word message schedule. -/
def shaExtend (fuel : Nat) (ws : List Nat) : List Nat :=
  match fuel with
  | 0 => ws
  | fuel + 1 =>
    let t := ws.length
    let s0 := (rotr 7 (ws.getD (t - 15) 0)) ^^^ (rotr 18 (ws.getD (t - 15) 0)) ^^^ (ws.getD (t - 15) 0 / 8)
    let s1 := (rotr 17 (ws.getD (t - 2) 0)) ^^^ (rotr 19 (ws.getD (t - 2) 0)) ^^^ (ws.getD (t - 2) 0 / 1024)
    shaExtend fuel (ws ++ [w32 (ws.getD (t - 16) 0 + s0 + ws.getD (t - 7) 0 + s1)])

/-- One SHA-256 compression round. -/
def shaRound (st : Nat × Nat × Nat × Nat × Nat × Nat × Nat × Nat) (kw : Nat × Nat) :
    Nat × Nat × Nat × Nat × Nat × Nat × Nat × Nat :=
  let (a, b, c, d, e, f, g, h) := st
  let s1 := (rotr 6 e) ^^^ (rotr 11 e) ^^^ (rotr 25 e)
  let ch := (e &&& f) ^^^ ((4294967295 - e) &&& g)
  let t1 := w32 (h + s1 + ch + kw.1 + kw.2)
  let s0 := (rotr 2 a) ^^^ (rotr 13 a) ^^^ (rotr 22 a)
  let mj := (a &&& b) ^^^ (a &&& c) ^^^ (b &&& c)
  let t2 := w32 (s0 + mj)
  (w32 (t1 + t2), a, b, c, w32 (d + t1), e, f, g)

/-- Compress one 64-byte block into the running state. -/
def shaBlock (h : List Nat) (block : List Nat) : List Nat :=
  let ws := shaExtend 48 (bytesToWords block)
  let st0 := (h.getD 0 0, h.getD 1 0, h.getD 2 0, h.getD 3 0,
              h.getD 4 0, h.getD 5 0, h.getD 6 0, h.getD 7 0)
  let st := (List.zip shaK ws).foldl shaRound st0
  [w32 (h.getD 0 0 + st.1), w32 (h.getD 1 0 + st.2.1), w32 (h.getD 2 0 + st.2.2.1),
   w32 (h.getD 3 0 + st.2.2.2.1), w32 (h.getD 4 0 + st.2.2.2.2.1), w32 (h.getD 5 0 + st.2.2.2.2.2.1),
   w32 (h.getD 6 0 + st.2.2.2.2.2.2.1), w32 (h.getD 7 0 + st.2.2.2.2.2.2.2)]

/-- Fold the compression function over consecutive 64-byte blocks (the
fuel keeps the recursion structural; one unit per block suffices). -/
def shaBlocks : Nat → List Nat → List Nat → List Nat
  | _, h, [] => h
  | 0, h, _ => h
  | fuel + 1, h, bs => shaBlocks fuel (shaBlock h (bs.take 64)) (bs.drop 64)

/-- SHA-256 of a byte list, as the eight 32-bit state words. -/
def sha256Words (msg : List Nat) : List Nat :=
  shaBlocks (shaPad msg).length shaH0 (shaPad msg)

/-- `int(hashlib.sha256(msg).hexdigest(), 16)`: the digest read as one
big-endian integer. -/
def sha256Int (msg : List Nat) : Nat :=
  (sha256Words msg).foldl (fun acc wv => acc * 4294967296 + wv) 0

/-- A claim key as fed to the external `sd_jwt` issuer: either a plain
JSON key or a key wrapped in `SDObj` (selectively disclosable). -/
inductive SDKey where
  | plain : String → SDKey
  | sd : String → SDKey
deriving DecidableEq, Repr

/-- JSON values whose object keys may be `SDObj`-wrapped, i.e. the claim
structures `sdjwtFormatter` assembles before handing them to
`SDJWTIssuer`. -/
inductive JVal where
  | str : String → JVal
  | int : Int → JVal
  | bool : Bool → JVal
  | null : JVal
  | arr : List JVal → JVal
  | obj : List (SDKey × JVal) → JVal

/-- Plain JSON values: what arrives in the `PID` request body (parsed
JSON can never contain `SDObj` keys). -/
inductive PVal where
  | str : String → PVal
  | int : Int → PVal
  | bool : Bool → PVal
  | null : PVal
  | arr : List PVal → PVal
  | obj : List (String × PVal) → PVal

mutual

/-- Embed a plain JSON value into the `SDObj`-aware claim values (every
object key stays a plain key). -/
def PVal.toJVal : PVal → JVal
  | .str s => JVal.str s
  | .int n => JVal.int n
  | .bool b => JVal.bool b
  | .null => JVal.null
  | .arr xs => JVal.arr (toJValList xs)
  | .obj fs => JVal.obj (toJValFields fs)

/-- Elementwise `PVal.toJVal` on a list. -/
def toJValList : List PVal → List JVal
  | [] => []
  | x :: xs => x.toJVal :: toJValList xs

/-- Fieldwise `PVal.toJVal` on an object's fields. -/
def toJValFields : List (String × PVal) → List (SDKey × JVal)
  | [] => []
  | (k, v) :: fs => (SDKey.plain k, v.toJVal) :: toJValFields fs

end

/-- Python `d[k]` on a plain JSON value. -/
def PVal.sub (v : PVal) (k : String) : Except PyErr PVal :=
  match v with
  | .obj fs =>
    (match pyFind fs k with
     | some x => Except.ok x
     | none => Except.error (PyErr.keyError k))
  | _ => Except.error PyErr.typeError

/-- `DATA_sd_jwt` (`formatter_func.py` lines 272-286): wrap every
attribute key of a claim group in `SDObj`, keeping its value. -/
def DATA_sd_jwt (PID : List (String × PVal)) : List (SDKey × JVal) :=
  PID.map (fun p => (SDKey.sd p.1, p.2.toJVal))

/-- One selective-disclosure object: the (salt, claim name, claim value)
triple released alongside the signed body. -/
structure Disclosure where
  salt : Nat
  name : String
  value : JVal

/-- Modelled from the spec: the salted digest of a disclosure as embedded
in the signed body's `_sd` array — `digest(salt ‖ name ‖ value)`.  The
hash itself is external (`sd_jwt` library); the model keeps the digest as
an injective function of the triple, which is all the structural claims
need (one salted digest per disclosed attribute). -/
def discDigest (d : Disclosure) : JVal :=
  JVal.arr [JVal.str "sha-256", JVal.int (Int.ofNat d.salt), JVal.str d.name, d.value]

mutual

/-- Modelled from the spec: the `SDJWTIssuer` transformation of a claim
tree (decoy injection disabled, as in the shipped configuration).  Each
field whose key is `SDObj`-wrapped is removed from the body, a fresh salt
is drawn from the stream `rnd` (the salt counter `c` advances once per
disclosure), the (salt, name, value) disclosure is emitted, and its digest
is appended to the enclosing object's `_sd` array; plain fields stay in
the body with their subtree processed recursively.  Returns (body,
disclosures, next counter). -/
def sdIssue (rnd : Nat → Nat) (c : Nat) : JVal → JVal × List Disclosure × Nat
  | .obj fs =>
    let r := sdIssueFields rnd c fs
    (JVal.obj (if r.2.2.1.isEmpty then r.1 else r.1 ++ [(SDKey.plain "_sd", JVal.arr r.2.2.1)]),
     r.2.1, r.2.2.2)
  | v => (v, [], c)

/-- Field loop of `sdIssue`; returns (body fields, disclosures, digests
for the enclosing `_sd` array, next counter). -/
def sdIssueFields (rnd : Nat → Nat) (c : Nat) :
    List (SDKey × JVal) → List (SDKey × JVal) × List Disclosure × List JVal × Nat
  | [] => ([], [], [], c)
  | (SDKey.plain k, v) :: rest =>
    let rv := sdIssue rnd c v
    let rr := sdIssueFields rnd rv.2.2 rest
    ((SDKey.plain k, rv.1) :: rr.1, rv.2.1 ++ rr.2.1, rr.2.2.1, rr.2.2.2)
  | (SDKey.sd k, v) :: rest =>
    let d : Disclosure := ⟨rnd c, k, v⟩
    let rr := sdIssueFields rnd (c + 1) rest
    (rr.1, d :: rr.2.1, discDigest d :: rr.2.2.1, rr.2.2.2)

end

/-- The expected salted disclosures of one `SDObj`-wrapped claim group:
one per attribute, in order, with consecutive salt-stream positions. -/
def discList (rnd : Nat → Nat) : Nat → List (String × PVal) → List Disclosure
  | _, [] => []
  | c, (k, v) :: rest => ⟨rnd c, k, v.toJVal⟩ :: discList rnd (c + 1) rest

/-- The holder's device public key after
`serialization.load_pem_public_key`: its curve name and raw public-point
coordinates (the external PEM parsing is assumed to succeed; a key that
does not even parse fails before the embedded logic runs). -/
structure DevKey where
  curveName : String
  x : Nat
  y : Nat

/-- The `PID` request dictionary of `sdjwtFormatter`, with the fields the
function reads: `PID["data"]["claims"]` (claim groups),
`PID["data"]["evidence"]` (evidence list), the parsed
`PID["device_publickey"]`, and `PID["doctype"]`. -/
structure PIDInput where
  claims : List (String × List (String × PVal))
  evidences : List PVal
  devKey : DevKey
  doctype : String

/-- The curve allowlist of `sdjwtFormatter` lines 209-213. -/
def curve_map : List (String × String) :=
  [("secp256r1", "P-256"), ("secp384r1", "P-384"), ("secp521r1", "P-521")]

/-- The observable result of `sdjwtFormatter`: the signed body and
disclosure list making up `sd_jwt_issuance`, plus the key-generation
inputs the function handed to the external `get_jwk` (settings,
`no_randomness` flag, seed) and the curve identifier and seed used for the
holder key, recorded so that key-derivation claims are statable. -/
structure SDJWTOut where
  body : JVal
  disclosures : List Disclosure
  demoKeysArgs : String × Bool × Nat
  holderSeed : Nat
  holderCrv : String

/-- Look up a key expected to hold a string (fed to `strptime`, which
raises `TypeError` on a non-string argument); `KeyError` when absent. -/
def pyFindStr (l : List (String × PVal)) (k : String) : Except PyErr String :=
  match pyFind l k with
  | none => Except.error (PyErr.keyError k)
  | some (PVal.str s) => Except.ok s
  | some _ => Except.error PyErr.typeError

/-- `sdjwtFormatter` (`formatter_func.py` lines 122-270).

Environment and randomness are explicit: `tz` is the host's UTC offset
used by `DatestringFormatter`, `rnd` is the salt stream of the external
`SDJWTIssuer`, `jti` is the value of `str(uuid4())`, and `settings` is the
content of the fixed deployment file `settings.yml`.

The seed is `int(hashlib.sha256().hexdigest(), 16)` — the SHA-256 of the
empty byte string, since nothing is ever hashed in — and is passed to
`get_jwk` both for the issuer demo keys and for the holder key.  The
claim groups are addressed positionally (`keys()[0]`, `keys()[1]`,
`IndexError` when fewer than two groups exist).  An unrecognized curve
leaves `curve_map.get(curve_name) = None`, which flows into the
`holder_key` JWK parameters; modelled from the spec and the `jwcrypto`
backend of `get_jwk`, constructing an EC JWK without a curve fails with an
untyped error (`ValueError`-family, modelled as
`PyErr.valueError "invalid JWK crv"`), not with any typed error class. -/
def sdjwtFormatter (tz : Int) (rnd : Nat → Nat) (jti : String) (settings : String)
    (PID : PIDInput) : Except PyErr SDJWTOut :=
  let seed := sha256Int []
  match pyFind PID.claims pidNS with
  | none => Except.error (PyErr.keyError pidNS)
  | some PID_Claims_data =>
    match pyFindStr PID_Claims_data "issuance_date" with
    | .error err => Except.error err
    | .ok iatStr =>
      match DatestringFormatter tz iatStr with
      | .error err => Except.error err
      | .ok iat =>
        match pyFindStr PID_Claims_data "expiry_date" with
        | .error err => Except.error err
        | .ok expStr =>
          match DatestringFormatter tz expStr with
          | .error err => Except.error err
          | .ok exp =>
            match PID.evidences.get? 0 with
            | none => Except.error PyErr.indexError
            | some evidence =>
              match evidence.sub "source" with
              | .error err => Except.error err
              | .ok src =>
                match src.sub "organization_name" with
                | .error err => Except.error err
                | .ok orgName =>
                  match (PID.claims.map Prod.fst).get? 0 with
                  | none => Except.error PyErr.indexError
                  | some primeiraChave =>
                    match (PID.claims.map Prod.fst).get? 1 with
                    | none => Except.error PyErr.indexError
                    | some segundaChave =>
                      let PID_DATA := (pyFind PID.claims primeiraChave).getD []
                      let OPTIONAL_DATA := (pyFind PID.claims segundaChave).getD []
                      let claimsTree : List (SDKey × JVal) := [
                        (SDKey.plain "iss", orgName.toJVal),
                        (SDKey.plain "jti", JVal.str jti),
                        (SDKey.plain "iat", JVal.int iat),
                        (SDKey.plain "exp", JVal.int exp),
                        (SDKey.plain "status", JVal.str "validation status URL"),
                        (SDKey.plain "type", JVal.str PID.doctype),
                        (SDKey.plain "verified_claims", JVal.obj [
                          (SDKey.plain "verification", JVal.obj [
                            (SDKey.plain "trust_framework", JVal.str "eidas"),
                            (SDKey.plain "assurance_level", JVal.str "high"),
                            (SDKey.sd "evidence", evidence.toJVal)]),
                          (SDKey.plain "claims", JVal.obj [
                            (SDKey.plain primeiraChave, JVal.obj (DATA_sd_jwt PID_DATA)),
                            (SDKey.plain segundaChave, JVal.obj (DATA_sd_jwt OPTIONAL_DATA))])])]
                      match pyFind curve_map PID.devKey.curveName with
                      | none => Except.error (PyErr.valueError "invalid JWK crv")
                      | some curveIdentifier =>
                        let issued := sdIssue rnd 0 (JVal.obj claimsTree)
                        Except.ok {
                          body := issued.1,
                          disclosures := issued.2.1,
                          demoKeysArgs := (settings, true, seed),
                          holderSeed := seed,
                          holderCrv := curveIdentifier }

/-- The tuple returned by the external `eccEnc` (ECIES encryption):
ciphertext, nonce, authentication tag, and the ephemeral public point
whose `.x`/`.y` the route serializes via `pubkeyDER`. -/
structure EccEncOut where
  ciphertext : List Nat
  nonce : List Nat
  authTag : List Nat
  pubX : Nat
  pubY : Nat

/-- The redirect issued by `redirect_getpid(version, returnURL, code,
params)` (external `redirect_func`): modelled as the data it carries. -/
structure Redirect where
  version : String
  returnURL : String
  code : Nat
  params : List (String × String)

/-- The credential-delivery tail of `getlightresponse`
(`route_eidasnode.py` lines 123-139), entered once both formatter calls
returned without error: `r_mdoc` is `r['mdoc']` (the base64url mdoc) and
`sd_jwt` is `r1['sd-jwt']`.  The mdoc is first transcoded from
base64url to standard base64 (`mdoc = b64encode(urlsafe_b64decode(...))`).
When `session['version'] == "0.1"` the result is not ciphered: the mdoc is
redirected base64url-encoded with empty `nonce`, `authTag` and
`ciphertextPubKey`; for any other version the mdoc bytes are encrypted
with the external `eccEnc` (passed in explicitly, together with
`pubkeyDER`) under the session certificate and the four envelope fields
are delivered base64url-encoded.  `sd_jwt` is passed through unencrypted
on both paths. -/
def getlightresponse_deliver (eccEnc : List Nat → List Nat → EccEncOut)
    (pubkeyDER : Nat → Nat → List Nat) (version returnURL certificate : String)
    (r_mdoc sd_jwt : String) : Redirect :=
  let mdoc := b64encodeBytes (b64urldecodeStr r_mdoc)
  if version = "0.1" then
    { version := version, returnURL := returnURL, code := 0, params := [
        ("mdoc", strOfAscii (b64urlencodeBytes mdoc)),
        ("nonce", ""),
        ("authTag", ""),
        ("ciphertextPubKey", ""),
        ("sd_jwt", sd_jwt)] }
  else
    let encryptedMsg := eccEnc (b64urldecodeStr certificate) mdoc
    { version := version, returnURL := returnURL, code := 0, params := [
        ("mdoc", strOfAscii (b64urlencodeBytes encryptedMsg.ciphertext)),
        ("nonce", strOfAscii (b64urlencodeBytes encryptedMsg.nonce)),
        ("authTag", strOfAscii (b64urlencodeBytes encryptedMsg.authTag)),
        ("ciphertextPubKey",
          strOfAscii (b64urlencodeBytes (pubkeyDER encryptedMsg.pubX encryptedMsg.pubY))),
        ("sd_jwt", sd_jwt)] }

/-- Plain-key lookup among issued body fields (`_sd` digests carry no
name, so a claim found here is disclosed in the clear). -/
def pyFindSD : List (SDKey × JVal) → String → Option JVal
  | [], _ => none
  | (SDKey.plain k', v) :: rest, k => if k' = k then some v else pyFindSD rest k
  | (SDKey.sd _, _) :: rest, k => pyFindSD rest k

/-- Lookup of a plain field in an issued JSON object. -/
def objLookup (v : JVal) (k : String) : Option JVal :=
  match v with
  | .obj fs => pyFindSD fs k
  | _ => none

/-- The claim-group subtree of an issued body: the plain field `g` inside
`verified_claims.claims`. -/
def groupSD (body : JVal) (g : String) : Option JVal :=
  match objLookup body "verified_claims" with
  | some vc =>
    (match objLookup vc "claims" with
     | some cl => objLookup cl g
     | none => none)
  | none => none

/-- The `random` protection salt of the first issuer-signed item with the
given element identifier, from an element list. -/
def findRandom : List CBOR → String → Option (List Nat)
  | [], _ => none
  | CBOR.tag _ (CBOR.map kvs) :: rest, id =>
    (match pyFind kvs "elementIdentifier" with
     | some (CBOR.str s) =>
       if s = id then
         (match pyFind kvs "random" with
          | some (CBOR.bytes bs) => some bs
          | _ => none)
       else findRandom rest id
     | _ => findRandom rest id)
  | _ :: rest, id => findRandom rest id

/-- The `random` protection salt stored in an encoded mdoc for the given
namespace and element identifier. -/
def mdocRandom (out : CBOR) (ns id : String) : Option (List Nat) :=
  match out.sub "documents" with
  | .ok (CBOR.arr (d0 :: _)) =>
    (match d0.sub "issuerSigned" with
     | .ok isg =>
       (match isg.sub "nameSpaces" with
        | .ok (CBOR.map kvs) =>
          (match pyFind kvs ns with
           | some (CBOR.arr es) => findRandom es id
           | _ => none)
        | _ => none)
     | _ => none)
  | _ => none

/-- Sample attribute set for concrete instances: the required namespace
with name, date and validity elements. -/
def dataC1 : List (String × List (String × CBOR)) :=
  [(pidNS, [("family_name", CBOR.str "Doe"), ("given_name", CBOR.str "Jane"),
            ("birth_date", CBOR.str "1990-01-01"), ("issuance_date", CBOR.str "2024-01-01"),
            ("expiry_date", CBOR.str "2034-01-01")])]

/-- Sample evidence block (first element of `pid_data["evidence"]`). -/
def evSample : PVal :=
  PVal.obj [("type", PVal.str "electronic_record"),
            ("source", PVal.obj [("organization_name", PVal.str "Test PID issuer"),
                                 ("organization_id", PVal.str "EUDI")])]

/-- Sample mandatory claim group (the PID namespace). -/
def pidGroup1 : List (String × PVal) :=
  [("family_name", PVal.str "Doe"), ("given_name", PVal.str "Jane"),
   ("birth_date", PVal.str "1990-01-01"), ("issuance_date", PVal.str "2024-01-01"),
   ("expiry_date", PVal.str "2034-01-01")]

/-- Sample optional claim group. -/
def pidGroup2 : List (String × PVal) :=
  [("age_over_18", PVal.bool true), ("nationality", PVal.str "PT")]

/-- Sample well-formed `PID` input (P-256 device key). -/
def pidSample : PIDInput :=
  ⟨[(pidNS, pidGroup1), ("optional", pidGroup2)], [evSample],
   ⟨"secp256r1", 11, 22⟩, "eu.europa.ec.eudiw.pid.1"⟩

/-- A second well-formed `PID` input with different attributes and a
P-384 device key. -/
def pidSample2 : PIDInput :=
  ⟨[(pidNS, [("family_name", PVal.str "Roe"), ("issuance_date", PVal.str "2025-02-03"),
             ("expiry_date", PVal.str "2035-02-03")]),
    ("optional", [("resident_city", PVal.str "Lisboa")])], [evSample],
   ⟨"secp384r1", 33, 44⟩, "eu.europa.ec.eudiw.pid.1"⟩

/-- The well-formed sample input with a device key on an unrecognized
curve. -/
def pidBadCurve : PIDInput :=
  ⟨[(pidNS, pidGroup1), ("optional", pidGroup2)], [evSample],
   ⟨"secp192r1", 11, 22⟩, "eu.europa.ec.eudiw.pid.1"⟩

/-- The sample input with a single claim group. -/
def pidOneGroup : PIDInput :=
  ⟨[(pidNS, pidGroup1)], [evSample], ⟨"secp256r1", 11, 22⟩, "eu.europa.ec.eudiw.pid.1"⟩


theorem decodeElem_encodeItem (rnd : String → String → List Nat) (ns : String) (i : Nat)
    (id : String) (v : CBOR) :
    decodeElem (encodeItem rnd ns i id v) = Except.ok (CBOR.str id, v) := by
  by_cases h : isDateId id
  · simp [decodeElem, encodeItem, CBOR.sub, pyFind, h]
  · simp [decodeElem, encodeItem, CBOR.sub, pyFind, h]

theorem decodeElems_encodeItems (rnd : String → String → List Nat) (ns : String)
    (elems : List (String × CBOR)) : ∀ i : Nat,
    decodeElems (encodeItems rnd ns i elems) =
      Except.ok (elems.map (fun q => (CBOR.str q.1, q.2))) := by
  induction elems with
  | nil => intro i; simp [encodeItems, decodeElems]
  | cons hd tl ih =>
    intro i
    simp [encodeItems, decodeElems, decodeElem_encodeItem, ih (i + 1)]

theorem decodeNss_encodeNss (rnd : String → String → List Nat)
    (data : List (String × List (String × CBOR))) :
    decodeNss (encodeNss rnd data) =
      Except.ok (data.map (fun p => (p.1, p.2.map (fun q => (CBOR.str q.1, q.2))))) := by
  induction data with
  | nil => simp [encodeNss, decodeNss]
  | cons hd tl ih =>
    simp [encodeNss, decodeNss, decodeElems_encodeItems, ih]

/-- C1: for every attribute set containing the required namespace (with
its validity dates, from which the builder reads the validity window),
decoding the built mdoc recovers every (element identifier, value) pair of
every namespace exactly, the three date-element identifiers being
recovered as their date value with the calendar-date tag wrapper
removed. -/
theorem c1_mdoc_decode_roundtrip (privD : Nat) (rnd : String → String → List Nat)
    (data : List (String × List (String × CBOR))) (doctype devicePublickey : String)
    (pid : List (String × CBOR)) (iv ev : CBOR)
    (h : pyFind data pidNS = some pid)
    (h1 : pyFind pid "issuance_date" = some iv)
    (h2 : pyFind pid "expiry_date" = some ev) :
    ∃ out, mdocFormatter privD rnd data doctype devicePublickey = Except.ok out ∧
      cbor2elems out =
        Except.ok (data.map (fun p => (p.1, p.2.map (fun q => (CBOR.str q.1, q.2))))) := by
  simp only [mdocFormatter, h, h1, h2]
  exact ⟨_, rfl, by
    simp [cbor2elems, CBOR.sub, CBOR.idx, pyFind, List.get?, decodeNss_encodeNss]⟩

/-- C6 counterexample: on an attribute set without the required
namespace the builder raises a plain `KeyError`, which is not the typed
`MissingDataError` failure the claim asserts. -/
theorem c6_missing_namespace_not_typed :
    mdocFormatter 1 (fun _ _ => []) [] "eu.europa.ec.eudiw.pid.1" "pk" =
      Except.error (PyErr.keyError pidNS) ∧
    Except.error (PyErr.keyError pidNS) ≠
      (Except.error PyErr.missingDataError : Except PyErr CBOR) :=
  ⟨rfl, by simp⟩

/-- C6 amended: for every attribute set that does not contain the
namespace `eu.europa.ec.eudiw.pid.1`, `mdocFormatter` fails with the
untyped `KeyError` raised by the subscript on line 70 — no typed
`MissingDataError` exists in the code. -/
theorem c6_missing_namespace_keyerror (privD : Nat) (rnd : String → String → List Nat)
    (data : List (String × List (String × CBOR))) (doctype devicePublickey : String)
    (h : pyFind data pidNS = none) :
    mdocFormatter privD rnd data doctype devicePublickey =
      Except.error (PyErr.keyError pidNS) := by
  simp [mdocFormatter, h]

/-- C6 witness: the amended theorem at the empty attribute set. -/
theorem c6_missing_namespace_keyerror_instance :
    mdocFormatter 1 (fun _ _ => []) [] "org.iso.18013.5.1.mDL" "pk" =
      Except.error (PyErr.keyError pidNS) :=
  c6_missing_namespace_keyerror 1 (fun _ _ => []) [] "org.iso.18013.5.1.mDL" "pk" rfl

/-- C7 counterexample: on a structurally invalid mdoc (a CBOR map without
`documents`) the decoder raises a plain `KeyError`, which is not the typed
`MalformedCredentialError` failure the claim asserts. -/
theorem c7_malformed_input_not_typed :
    cbor2elems (CBOR.map []) = Except.error (PyErr.keyError "documents") ∧
    Except.error (PyErr.keyError "documents") ≠
      (Except.error PyErr.malformedCredentialError :
        Except PyErr (List (String × List (CBOR × CBOR)))) :=
  ⟨rfl, by simp⟩

/-- C7 amended: on structurally invalid input `cbor2elems` fails with the
untyped exception of the failing subscript — `KeyError` when the top-level
dict lacks `documents`, `TypeError` when the decoded value is not a dict —
never with a typed `MalformedCredentialError`, which does not exist in the
code. -/
theorem c7_malformed_input_untyped (kvs : List (String × CBOR)) (s : String)
    (h : pyFind kvs "documents" = none) :
    cbor2elems (CBOR.map kvs) = Except.error (PyErr.keyError "documents") ∧
    cbor2elems (CBOR.str s) = Except.error PyErr.typeError := by
  constructor
  · simp [cbor2elems, CBOR.sub, h]
  · simp [cbor2elems, CBOR.sub]

/-- C7 witness: the amended theorem at the empty map and a string. -/
theorem c7_malformed_input_untyped_instance :
    cbor2elems (CBOR.map []) = Except.error (PyErr.keyError "documents") ∧
    cbor2elems (CBOR.str "junk") = Except.error PyErr.typeError :=
  c7_malformed_input_untyped [] "junk" rfl

/-- C3 counterexample: the conversion runs through the naive datetime's
local-time `timestamp()`, so on a host whose UTC offset is +01:00
(3600 seconds) the accepted date 2024-01-01 yields 19722, one less than
the 19723 whole days between 1970-01-01 and 2024-01-01. -/
theorem c3_local_timezone_shifts_epoch_days :
    DatestringFormatter 3600 "2024-01-01" = Except.ok 19722 ∧
    daysFromCivil 2024 1 1 = 19723 ∧
    DatestringFormatter 3600 "2024-01-01" ≠ Except.ok (daysFromCivil 2024 1 1) := by
  refine ⟨rfl, rfl, ?_⟩
  intro hc
  have h1 : Except.ok (19722 : Int) = (Except.ok (19723 : Int) : Except PyErr Int) := hc
  simp at h1

/-- C3 amended: for every date string the parser accepts,
`DatestringFormatter` equals the number of whole days between 1970-01-01
and that date provided the host's UTC offset in effect at that local
midnight is zero; with a nonzero offset the local-time `timestamp()` call
shifts the result (by one day for positive offsets). -/
theorem c3_utc_day_epoch (s : String) (y m d : Nat)
    (h : parseDate s = Except.ok (y, m, d)) :
    DatestringFormatter 0 s = Except.ok (daysFromCivil y m d) := by
  simp only [DatestringFormatter, h, sub_zero]
  rw [Int.mul_tdiv_cancel _ (by decide)]

/-- C3 witness: the amended theorem at 2024-01-01. -/
theorem c3_utc_day_epoch_instance :
    DatestringFormatter 0 "2024-01-01" = Except.ok (daysFromCivil 2024 1 1) :=
  c3_utc_day_epoch "2024-01-01" 2024 1 1 rfl

/-- C9: delivery of an issued credential is gated on the session protocol
version: for version "0.1" the mdoc is redirected in plaintext
(base64url-encoded) and `nonce`, `authTag` and `ciphertextPubKey` are the
empty string, while for every other version the four fields carry the
ECIES ciphertext, nonce, authentication tag and ephemeral public key; the
`sd_jwt` field is delivered unencrypted in both cases. -/
theorem c9_version_gated_delivery (eccEnc : List Nat → List Nat → EccEncOut)
    (pubkeyDER : Nat → Nat → List Nat)
    (version returnURL certificate r_mdoc sd_jwt : String) :
    (version = "0.1" →
      getlightresponse_deliver eccEnc pubkeyDER version returnURL certificate r_mdoc sd_jwt =
        { version := version, returnURL := returnURL, code := 0, params := [
            ("mdoc", strOfAscii (b64urlencodeBytes (b64encodeBytes (b64urldecodeStr r_mdoc)))),
            ("nonce", ""),
            ("authTag", ""),
            ("ciphertextPubKey", ""),
            ("sd_jwt", sd_jwt)] }) ∧
    (version ≠ "0.1" →
      getlightresponse_deliver eccEnc pubkeyDER version returnURL certificate r_mdoc sd_jwt =
        { version := version, returnURL := returnURL, code := 0, params := [
            ("mdoc", strOfAscii (b64urlencodeBytes
              (eccEnc (b64urldecodeStr certificate)
                (b64encodeBytes (b64urldecodeStr r_mdoc))).ciphertext)),
            ("nonce", strOfAscii (b64urlencodeBytes
              (eccEnc (b64urldecodeStr certificate)
                (b64encodeBytes (b64urldecodeStr r_mdoc))).nonce)),
            ("authTag", strOfAscii (b64urlencodeBytes
              (eccEnc (b64urldecodeStr certificate)
                (b64encodeBytes (b64urldecodeStr r_mdoc))).authTag)),
            ("ciphertextPubKey", strOfAscii (b64urlencodeBytes (pubkeyDER
              (eccEnc (b64urldecodeStr certificate)
                (b64encodeBytes (b64urldecodeStr r_mdoc))).pubX
              (eccEnc (b64urldecodeStr certificate)
                (b64encodeBytes (b64urldecodeStr r_mdoc))).pubY))),
            ("sd_jwt", sd_jwt)] }) := by
  constructor <;> intro h <;> simp [getlightresponse_deliver, h]

/-- C9 witness: both versions at concrete arguments. -/
theorem c9_version_gated_delivery_instance :
    getlightresponse_deliver (fun _ _ => ⟨[1], [2], [3], 4, 5⟩) (fun x y => [x, y])
        "0.1" "http://u" "Y2VydA==" "bWRvYw==" "jwt" =
      { version := "0.1", returnURL := "http://u", code := 0, params := [
          ("mdoc", strOfAscii (b64urlencodeBytes (b64encodeBytes (b64urldecodeStr "bWRvYw==")))),
          ("nonce", ""),
          ("authTag", ""),
          ("ciphertextPubKey", ""),
          ("sd_jwt", "jwt")] } ∧
    getlightresponse_deliver (fun _ _ => ⟨[1], [2], [3], 4, 5⟩) (fun x y => [x, y])
        "0.3" "http://u" "Y2VydA==" "bWRvYw==" "jwt" =
      { version := "0.3", returnURL := "http://u", code := 0, params := [
          ("mdoc", strOfAscii (b64urlencodeBytes [1])),
          ("nonce", strOfAscii (b64urlencodeBytes [2])),
          ("authTag", strOfAscii (b64urlencodeBytes [3])),
          ("ciphertextPubKey", strOfAscii (b64urlencodeBytes [4, 5])),
          ("sd_jwt", "jwt")] } :=
  ⟨(c9_version_gated_delivery (fun _ _ => ⟨[1], [2], [3], 4, 5⟩) (fun x y => [x, y])
      "0.1" "http://u" "Y2VydA==" "bWRvYw==" "jwt").1 rfl,
   (c9_version_gated_delivery (fun _ _ => ⟨[1], [2], [3], 4, 5⟩) (fun x y => [x, y])
      "0.3" "http://u" "Y2VydA==" "bWRvYw==" "jwt").2 (by decide)⟩

theorem sdIssueFields_data (rnd : Nat → Nat) (attrs : List (String × PVal)) : ∀ c : Nat,
    sdIssueFields rnd c (DATA_sd_jwt attrs) =
      ([], discList rnd c attrs, (discList rnd c attrs).map discDigest, c + attrs.length) := by
  induction attrs with
  | nil => intro c; simp [DATA_sd_jwt, sdIssueFields, discList]
  | cons hd tl ih =>
    intro c
    have ih' := ih (c + 1)
    simp only [DATA_sd_jwt] at ih' ⊢
    simp [sdIssueFields, discList, ih']
    omega

theorem discList_length (rnd : Nat → Nat) (attrs : List (String × PVal)) : ∀ c : Nat,
    (discList rnd c attrs).length = attrs.length := by
  induction attrs with
  | nil => intro c; simp [discList]
  | cons hd tl ih => intro c; simp [discList, ih (c + 1)]

theorem discList_pairs (rnd : Nat → Nat) (attrs : List (String × PVal)) : ∀ c : Nat,
    (discList rnd c attrs).map (fun dd => (dd.name, dd.value)) =
      attrs.map (fun p => (p.1, p.2.toJVal)) := by
  induction attrs with
  | nil => intro c; simp [discList]
  | cons hd tl ih => intro c; simp [discList, ih (c + 1)]

theorem sdjwtFormatter_shape (tz : Int) (rnd : Nat → Nat) (jti settings : String)
    (g1 g2 : String) (a1 a2 : List (String × PVal))
    (rest : List (String × List (String × PVal)))
    (ev0 : PVal) (evrest : List PVal) (dk : DevKey) (dt : String)
    (pidAttrs : List (String × PVal)) (s1 s2 : String)
    (y1 m1 d1 y2 m2 d2 : Nat)
    (src : List (String × PVal)) (org : String) (crv : String)
    (hne : g1 ≠ g2)
    (hpid : pyFind ((g1, a1) :: (g2, a2) :: rest) pidNS = some pidAttrs)
    (hs1 : pyFind pidAttrs "issuance_date" = some (PVal.str s1))
    (hp1 : parseDate s1 = Except.ok (y1, m1, d1))
    (hs2 : pyFind pidAttrs "expiry_date" = some (PVal.str s2))
    (hp2 : parseDate s2 = Except.ok (y2, m2, d2))
    (hsrc : ev0.sub "source" = Except.ok (PVal.obj src))
    (horg : pyFind src "organization_name" = some (PVal.str org))
    (hcrv : pyFind curve_map dk.curveName = some crv)
    (p1 : String × PVal) (t1 : List (String × PVal)) (ha1 : a1 = p1 :: t1)
    (p2 : String × PVal) (t2 : List (String × PVal)) (ha2 : a2 = p2 :: t2) :
    sdjwtFormatter tz rnd jti settings
      ⟨(g1, a1) :: (g2, a2) :: rest, ev0 :: evrest, dk, dt⟩ =
      Except.ok {
        body := JVal.obj [
          (SDKey.plain "iss", JVal.str org),
          (SDKey.plain "jti", JVal.str jti),
          (SDKey.plain "iat", JVal.int (Int.tdiv (daysFromCivil y1 m1 d1 * 86400 - tz) 86400)),
          (SDKey.plain "exp", JVal.int (Int.tdiv (daysFromCivil y2 m2 d2 * 86400 - tz) 86400)),
          (SDKey.plain "status", JVal.str "validation status URL"),
          (SDKey.plain "type", JVal.str dt),
          (SDKey.plain "verified_claims", JVal.obj [
            (SDKey.plain "verification", JVal.obj [
              (SDKey.plain "trust_framework", JVal.str "eidas"),
              (SDKey.plain "assurance_level", JVal.str "high"),
              (SDKey.plain "_sd", JVal.arr [discDigest ⟨rnd 0, "evidence", ev0.toJVal⟩])]),
            (SDKey.plain "claims", JVal.obj [
              (SDKey.plain g1, JVal.obj [(SDKey.plain "_sd",
                JVal.arr ((discList rnd 1 a1).map discDigest))]),
              (SDKey.plain g2, JVal.obj [(SDKey.plain "_sd",
                JVal.arr ((discList rnd (1 + a1.length) a2).map discDigest))])])])],
        disclosures := ⟨rnd 0, "evidence", ev0.toJVal⟩ ::
          (discList rnd 1 a1 ++ discList rnd (1 + a1.length) a2),
        demoKeysArgs := (settings, true, sha256Int []),
        holderSeed := sha256Int [],
        holderCrv := crv } := by
  subst ha1 ha2
  simp only [sdjwtFormatter, hpid]
  simp only [pyFindStr, hs1, hs2]
  simp only [DatestringFormatter, hp1, hp2]
  simp only [List.get?, List.map]
  simp only [hsrc]
  simp only [PVal.sub, horg]
  simp only [hcrv]
  simp [pyFind, hne, sdIssue, sdIssueFields, sdIssueFields_data, discList, PVal.toJVal]

/-- C2: in the claim structure `sdjwtFormatter` hands to the SD-JWT
issuer, the top-level claims `iss`, `jti`, `iat`, `exp` and `type` stay in
the signed body as plain claims (retrievable by plain-field lookup, never
replaced by a salted digest), while every individual attribute of the two
claim-group subtrees becomes an independent disclosure — the disclosure
list carries exactly one (salt, name, value) triple per attribute (plus
the evidence block), and each group subtree's `_sd` digest array has one
salted digest per attribute of that group, not one per namespace. -/
theorem c2_sdjwt_selective_disclosure (tz : Int) (rnd : Nat → Nat) (jti settings : String)
    (g1 g2 : String) (a1 a2 : List (String × PVal))
    (rest : List (String × List (String × PVal)))
    (ev0 : PVal) (evrest : List PVal) (dk : DevKey) (dt : String)
    (pidAttrs : List (String × PVal)) (s1 s2 : String)
    (y1 m1 d1 y2 m2 d2 : Nat)
    (src : List (String × PVal)) (org : String) (crv : String)
    (hne : g1 ≠ g2)
    (hpid : pyFind ((g1, a1) :: (g2, a2) :: rest) pidNS = some pidAttrs)
    (hs1 : pyFind pidAttrs "issuance_date" = some (PVal.str s1))
    (hp1 : parseDate s1 = Except.ok (y1, m1, d1))
    (hs2 : pyFind pidAttrs "expiry_date" = some (PVal.str s2))
    (hp2 : parseDate s2 = Except.ok (y2, m2, d2))
    (hsrc : ev0.sub "source" = Except.ok (PVal.obj src))
    (horg : pyFind src "organization_name" = some (PVal.str org))
    (hcrv : pyFind curve_map dk.curveName = some crv)
    (p1 : String × PVal) (t1 : List (String × PVal)) (ha1 : a1 = p1 :: t1)
    (p2 : String × PVal) (t2 : List (String × PVal)) (ha2 : a2 = p2 :: t2) :
    ∃ out, sdjwtFormatter tz rnd jti settings
        ⟨(g1, a1) :: (g2, a2) :: rest, ev0 :: evrest, dk, dt⟩ = Except.ok out ∧
      objLookup out.body "iss" = some (JVal.str org) ∧
      objLookup out.body "jti" = some (JVal.str jti) ∧
      objLookup out.body "iat" =
        some (JVal.int (Int.tdiv (daysFromCivil y1 m1 d1 * 86400 - tz) 86400)) ∧
      objLookup out.body "exp" =
        some (JVal.int (Int.tdiv (daysFromCivil y2 m2 d2 * 86400 - tz) 86400)) ∧
      objLookup out.body "type" = some (JVal.str dt) ∧
      out.disclosures.map (fun dd => (dd.name, dd.value)) =
        ("evidence", ev0.toJVal) ::
          (a1.map (fun p => (p.1, p.2.toJVal)) ++ a2.map (fun p => (p.1, p.2.toJVal))) ∧
      (∃ ds1 ds2,
        groupSD out.body g1 = some (JVal.obj [(SDKey.plain "_sd", JVal.arr ds1)]) ∧
        ds1.length = a1.length ∧
        groupSD out.body g2 = some (JVal.obj [(SDKey.plain "_sd", JVal.arr ds2)]) ∧
        ds2.length = a2.length) := by
  refine ⟨_, sdjwtFormatter_shape tz rnd jti settings g1 g2 a1 a2 rest ev0 evrest dk dt
    pidAttrs s1 s2 y1 m1 d1 y2 m2 d2 src org crv hne hpid hs1 hp1 hs2 hp2 hsrc horg hcrv
    p1 t1 ha1 p2 t2 ha2, ?_, ?_, ?_, ?_, ?_, ?_, ?_⟩
  · simp [objLookup, pyFindSD]
  · simp [objLookup, pyFindSD]
  · simp [objLookup, pyFindSD]
  · simp [objLookup, pyFindSD]
  · simp [objLookup, pyFindSD]
  · simp [discList_pairs]
  · exact ⟨(discList rnd 1 a1).map discDigest, (discList rnd (1 + a1.length) a2).map discDigest,
      by simp [groupSD, objLookup, pyFindSD],
      by simp [discList_length],
      by simp [groupSD, objLookup, pyFindSD, hne],
      by simp [discList_length]⟩

/-- C2 witness: the theorem at a concrete well-formed PID input. -/
theorem c2_sdjwt_selective_disclosure_instance :
    ∃ out, sdjwtFormatter 0 (fun i => i + 100) "jti-1" "settings" pidSample = Except.ok out ∧
      objLookup out.body "jti" = some (JVal.str "jti-1") ∧
      out.disclosures.map (fun dd => (dd.name, dd.value)) =
        ("evidence", evSample.toJVal) ::
          (pidGroup1.map (fun p => (p.1, p.2.toJVal)) ++
           pidGroup2.map (fun p => (p.1, p.2.toJVal))) := by
  obtain ⟨out, h0, _, h2, _, _, _, h6, _⟩ :=
    c2_sdjwt_selective_disclosure 0 (fun i => i + 100) "jti-1" "settings"
      pidNS "optional" pidGroup1 pidGroup2 [] evSample [] ⟨"secp256r1", 11, 22⟩
      "eu.europa.ec.eudiw.pid.1" pidGroup1 "2024-01-01" "2034-01-01"
      2024 1 1 2034 1 1
      [("organization_name", PVal.str "Test PID issuer"),
       ("organization_id", PVal.str "EUDI")]
      "Test PID issuer" "P-256" (by decide) rfl rfl rfl rfl rfl rfl rfl rfl
      ("family_name", PVal.str "Doe") _ rfl ("age_over_18", PVal.bool true) _ rfl
  exact ⟨out, h0, h2, h6⟩

/-- C4 counterexample: with a holder key on secp192r1 (not P-256/384/521)
the builder fails with the untyped error of the downstream JWK
construction, which is not the typed `UnsupportedCurveError` failure the
claim asserts. -/
theorem c4_unsupported_curve_not_typed :
    sdjwtFormatter 0 (fun i => i) "jti-1" "settings" pidBadCurve =
      Except.error (PyErr.valueError "invalid JWK crv") ∧
    Except.error (PyErr.valueError "invalid JWK crv") ≠
      (Except.error PyErr.unsupportedCurveError : Except PyErr SDJWTOut) :=
  ⟨rfl, by simp⟩

/-- C4 amended: for every otherwise well-formed input whose device key
lies on a curve outside {P-256, P-384, P-521}, `curve_map.get` yields
`None`, which is passed into the holder JWK parameters and makes the
external key construction raise an untyped error; no typed
`UnsupportedCurveError` exists in the code. -/
theorem c4_unsupported_curve_untyped (tz : Int) (rnd : Nat → Nat) (jti settings : String)
    (g1 g2 : String) (a1 a2 : List (String × PVal))
    (rest : List (String × List (String × PVal)))
    (ev0 : PVal) (evrest : List PVal) (dk : DevKey) (dt : String)
    (pidAttrs : List (String × PVal)) (s1 s2 : String)
    (y1 m1 d1 y2 m2 d2 : Nat) (src : List (String × PVal)) (org : String)
    (hpid : pyFind ((g1, a1) :: (g2, a2) :: rest) pidNS = some pidAttrs)
    (hs1 : pyFind pidAttrs "issuance_date" = some (PVal.str s1))
    (hp1 : parseDate s1 = Except.ok (y1, m1, d1))
    (hs2 : pyFind pidAttrs "expiry_date" = some (PVal.str s2))
    (hp2 : parseDate s2 = Except.ok (y2, m2, d2))
    (hsrc : ev0.sub "source" = Except.ok (PVal.obj src))
    (horg : pyFind src "organization_name" = some (PVal.str org))
    (hcrv : pyFind curve_map dk.curveName = none) :
    sdjwtFormatter tz rnd jti settings
      ⟨(g1, a1) :: (g2, a2) :: rest, ev0 :: evrest, dk, dt⟩ =
      Except.error (PyErr.valueError "invalid JWK crv") := by
  simp only [sdjwtFormatter, hpid]
  simp only [pyFindStr, hs1, hs2]
  simp only [DatestringFormatter, hp1, hp2]
  simp only [List.get?, List.map]
  simp only [hsrc]
  simp only [PVal.sub, horg]
  simp only [hcrv]

/-- C4 witness: the amended theorem at the concrete secp192r1 input. -/
theorem c4_unsupported_curve_untyped_instance :
    sdjwtFormatter 0 (fun i => i) "jti-1" "settings"
      ⟨(pidNS, pidGroup1) :: ("optional", pidGroup2) :: [], evSample :: [],
       ⟨"secp192r1", 11, 22⟩, "eu.europa.ec.eudiw.pid.1"⟩ =
      Except.error (PyErr.valueError "invalid JWK crv") :=
  c4_unsupported_curve_untyped 0 (fun i => i) "jti-1" "settings"
    pidNS "optional" pidGroup1 pidGroup2 [] evSample [] ⟨"secp192r1", 11, 22⟩
    "eu.europa.ec.eudiw.pid.1" pidGroup1 "2024-01-01" "2034-01-01"
    2024 1 1 2034 1 1
    [("organization_name", PVal.str "Test PID issuer"),
     ("organization_id", PVal.str "EUDI")]
    "Test PID issuer" rfl rfl rfl rfl rfl rfl rfl rfl

/-- C5 counterexample: with a single claim group the builder fails with
the untyped `IndexError` of the positional `keys()[1]` access, which is
not the typed `IncompleteAttributeSetError` failure the claim asserts. -/
theorem c5_single_group_not_typed :
    sdjwtFormatter 0 (fun i => i) "jti-1" "settings" pidOneGroup =
      Except.error PyErr.indexError ∧
    (Except.error PyErr.indexError : Except PyErr SDJWTOut) ≠
      Except.error PyErr.incompleteAttributeSetError :=
  ⟨rfl, by simp⟩

/-- C5 amended: for every input with exactly one claim group (whose only
group must be the PID namespace with parseable dates for control to reach
the group indexing), `sdjwtFormatter` fails with the untyped `IndexError`
of `list(pid_data["claims"].keys())[1]`; no typed
`IncompleteAttributeSetError` exists in the code. -/
theorem c5_single_group_index_error (tz : Int) (rnd : Nat → Nat) (jti settings : String)
    (g1 : String) (a1 : List (String × PVal))
    (ev0 : PVal) (evrest : List PVal) (dk : DevKey) (dt : String)
    (pidAttrs : List (String × PVal)) (s1 s2 : String)
    (y1 m1 d1 y2 m2 d2 : Nat) (src : List (String × PVal)) (org : String)
    (hpid : pyFind [(g1, a1)] pidNS = some pidAttrs)
    (hs1 : pyFind pidAttrs "issuance_date" = some (PVal.str s1))
    (hp1 : parseDate s1 = Except.ok (y1, m1, d1))
    (hs2 : pyFind pidAttrs "expiry_date" = some (PVal.str s2))
    (hp2 : parseDate s2 = Except.ok (y2, m2, d2))
    (hsrc : ev0.sub "source" = Except.ok (PVal.obj src))
    (horg : pyFind src "organization_name" = some (PVal.str org)) :
    sdjwtFormatter tz rnd jti settings ⟨[(g1, a1)], ev0 :: evrest, dk, dt⟩ =
      Except.error PyErr.indexError := by
  simp only [sdjwtFormatter, hpid]
  simp only [pyFindStr, hs1, hs2]
  simp only [DatestringFormatter, hp1, hp2]
  simp only [List.get?, List.map]
  simp only [hsrc]
  simp only [PVal.sub, horg]

/-- C5 witness: the amended theorem at the concrete one-group input. -/
theorem c5_single_group_index_error_instance :
    sdjwtFormatter 0 (fun i => i) "jti-1" "settings"
      ⟨[(pidNS, pidGroup1)], evSample :: [], ⟨"secp256r1", 11, 22⟩,
       "eu.europa.ec.eudiw.pid.1"⟩ =
      Except.error PyErr.indexError :=
  c5_single_group_index_error 0 (fun i => i) "jti-1" "settings"
    pidNS pidGroup1 evSample [] ⟨"secp256r1", 11, 22⟩
    "eu.europa.ec.eudiw.pid.1" pidGroup1 "2024-01-01" "2034-01-01"
    2024 1 1 2034 1 1
    [("organization_name", PVal.str "Test PID issuer"),
     ("organization_id", PVal.str "EUDI")]
    "Test PID issuer" rfl rfl rfl rfl rfl rfl rfl

theorem pyFind_encodeNss (rnd : String → String → List Nat)
    (data : List (String × List (String × CBOR))) (ns : String) :
    pyFind (encodeNss rnd data) ns =
      (pyFind data ns).map (fun elems => CBOR.arr (encodeItems rnd ns 0 elems)) := by
  induction data with
  | nil => simp [encodeNss, pyFind]
  | cons hd tl ih =>
    obtain ⟨nsh, elemsh⟩ := hd
    by_cases h : nsh = ns
    · subst h; simp [encodeNss, pyFind]
    · simp [encodeNss, pyFind, h, ih]

theorem findRandom_encodeItems {elems : List (String × CBOR)} {id : String} {v : CBOR}
    (rnd : String → String → List Nat) (ns : String)
    (helem : pyFind elems id = some v) :
    ∀ i, findRandom (encodeItems rnd ns i elems) id = some (rnd ns id) := by
  induction elems with
  | nil => simp [pyFind] at helem
  | cons hd tl ih =>
    obtain ⟨idh, vh⟩ := hd
    intro i
    by_cases he : idh = id
    · subst he
      simp [encodeItems, encodeItem, findRandom, pyFind]
    · simp only [pyFind, if_neg he] at helem
      simp [encodeItems, encodeItem, findRandom, pyFind, he, ih helem (i + 1)]

theorem mdocRandom_shape (privD : Nat) (rnd : String → String → List Nat)
    (data : List (String × List (String × CBOR))) (doctype dpk : String)
    (pid elems : List (String × CBOR)) (iv ev v : CBOR) (ns id : String)
    (h : pyFind data pidNS = some pid)
    (h1 : pyFind pid "issuance_date" = some iv)
    (h2 : pyFind pid "expiry_date" = some ev)
    (hns : pyFind data ns = some elems)
    (helem : pyFind elems id = some v) :
    ∃ out, mdocFormatter privD rnd data doctype dpk = Except.ok out ∧
      mdocRandom out ns id = some (rnd ns id) := by
  simp only [mdocFormatter, h, h1, h2]
  refine ⟨_, rfl, ?_⟩
  simp [mdocRandom, CBOR.sub, pyFind, pyFind_encodeNss, hns,
    findRandom_encodeItems rnd ns helem]

/-- C8: the builders are non-deterministic exactly in their randomized
fields — the randomness drawn per call flows injectively into the output.
For identical inputs, two runs of `sdjwtFormatter` whose `uuid4` draws
differ have different `jti` body claims, two runs whose salt streams
differ at the first position have different disclosure salt lists, and two
runs of `mdocFormatter` whose per-element salt draws differ at a present
element carry different `random` protection salts in the encoded mdoc.
(That the draws themselves differ between two real calls is the
external RNG freshness guarantee of `uuid4` and the issuer library.) -/
theorem c8_randomness_flows_to_outputs
    (tz : Int) (rnd1 rnd2 : Nat → Nat) (jti1 jti2 settings : String)
    (g1 g2 : String) (a1 a2 : List (String × PVal))
    (rest : List (String × List (String × PVal)))
    (ev0 : PVal) (evrest : List PVal) (dk : DevKey) (dt : String)
    (pidAttrs : List (String × PVal)) (s1 s2 : String)
    (y1 m1 d1 y2 m2 d2 : Nat)
    (src : List (String × PVal)) (org : String) (crv : String)
    (hne : g1 ≠ g2)
    (hpid : pyFind ((g1, a1) :: (g2, a2) :: rest) pidNS = some pidAttrs)
    (hs1 : pyFind pidAttrs "issuance_date" = some (PVal.str s1))
    (hp1 : parseDate s1 = Except.ok (y1, m1, d1))
    (hs2 : pyFind pidAttrs "expiry_date" = some (PVal.str s2))
    (hp2 : parseDate s2 = Except.ok (y2, m2, d2))
    (hsrc : ev0.sub "source" = Except.ok (PVal.obj src))
    (horg : pyFind src "organization_name" = some (PVal.str org))
    (hcrv : pyFind curve_map dk.curveName = some crv)
    (p1 : String × PVal) (t1 : List (String × PVal)) (ha1 : a1 = p1 :: t1)
    (p2 : String × PVal) (t2 : List (String × PVal)) (ha2 : a2 = p2 :: t2)
    (hj : jti1 ≠ jti2) (hr : rnd1 0 ≠ rnd2 0)
    (privD : Nat) (rndM1 rndM2 : String → String → List Nat)
    (data : List (String × List (String × CBOR))) (doctype dpk : String)
    (pid : List (String × CBOR)) (iv ev : CBOR)
    (h : pyFind data pidNS = some pid)
    (h1 : pyFind pid "issuance_date" = some iv)
    (h2 : pyFind pid "expiry_date" = some ev)
    (hm : rndM1 pidNS "issuance_date" ≠ rndM2 pidNS "issuance_date") :
    ∃ o1 o2 m1 m2,
      sdjwtFormatter tz rnd1 jti1 settings
        ⟨(g1, a1) :: (g2, a2) :: rest, ev0 :: evrest, dk, dt⟩ = Except.ok o1 ∧
      sdjwtFormatter tz rnd2 jti2 settings
        ⟨(g1, a1) :: (g2, a2) :: rest, ev0 :: evrest, dk, dt⟩ = Except.ok o2 ∧
      mdocFormatter privD rndM1 data doctype dpk = Except.ok m1 ∧
      mdocFormatter privD rndM2 data doctype dpk = Except.ok m2 ∧
      objLookup o1.body "jti" ≠ objLookup o2.body "jti" ∧
      o1.disclosures.map Disclosure.salt ≠ o2.disclosures.map Disclosure.salt ∧
      mdocRandom m1 pidNS "issuance_date" ≠ mdocRandom m2 pidNS "issuance_date" := by
  obtain ⟨mo1, hm1, hrr1⟩ := mdocRandom_shape privD rndM1 data doctype dpk pid pid iv ev iv
    pidNS "issuance_date" h h1 h2 h h1
  obtain ⟨mo2, hm2, hrr2⟩ := mdocRandom_shape privD rndM2 data doctype dpk pid pid iv ev iv
    pidNS "issuance_date" h h1 h2 h h1
  refine ⟨_, _, mo1, mo2,
    sdjwtFormatter_shape tz rnd1 jti1 settings g1 g2 a1 a2 rest ev0 evrest dk dt
      pidAttrs s1 s2 y1 m1 d1 y2 m2 d2 src org crv hne hpid hs1 hp1 hs2 hp2 hsrc horg hcrv
      p1 t1 ha1 p2 t2 ha2,
    sdjwtFormatter_shape tz rnd2 jti2 settings g1 g2 a1 a2 rest ev0 evrest dk dt
      pidAttrs s1 s2 y1 m1 d1 y2 m2 d2 src org crv hne hpid hs1 hp1 hs2 hp2 hsrc horg hcrv
      p1 t1 ha1 p2 t2 ha2,
    hm1, hm2, ?_, ?_, ?_⟩
  · simp [objLookup, pyFindSD, hj]
  · simp [hr]
  · rw [hrr1, hrr2]
    simp [hm]

/-- C8 witness: the theorem at concrete inputs with differing random
draws. -/
theorem c8_randomness_flows_to_outputs_instance :
    ∃ o1 o2 m1 m2,
      sdjwtFormatter 0 (fun _ => 0) "jti-A" "settings" pidSample = Except.ok o1 ∧
      sdjwtFormatter 0 (fun _ => 1) "jti-B" "settings" pidSample = Except.ok o2 ∧
      mdocFormatter 7 (fun _ _ => [0]) dataC1 "eu.europa.ec.eudiw.pid.1" "pk" =
        Except.ok m1 ∧
      mdocFormatter 7 (fun _ _ => [1]) dataC1 "eu.europa.ec.eudiw.pid.1" "pk" =
        Except.ok m2 ∧
      objLookup o1.body "jti" ≠ objLookup o2.body "jti" ∧
      o1.disclosures.map Disclosure.salt ≠ o2.disclosures.map Disclosure.salt ∧
      mdocRandom m1 pidNS "issuance_date" ≠ mdocRandom m2 pidNS "issuance_date" :=
  c8_randomness_flows_to_outputs 0 (fun _ => 0) (fun _ => 1) "jti-A" "jti-B" "settings"
    pidNS "optional" pidGroup1 pidGroup2 [] evSample [] ⟨"secp256r1", 11, 22⟩
    "eu.europa.ec.eudiw.pid.1" pidGroup1 "2024-01-01" "2034-01-01" 2024 1 1 2034 1 1
    [("organization_name", PVal.str "Test PID issuer"),
     ("organization_id", PVal.str "EUDI")]
    "Test PID issuer" "P-256" (by decide) rfl rfl rfl rfl rfl rfl rfl rfl
    ("family_name", PVal.str "Doe") _ rfl ("age_over_18", PVal.bool true) _ rfl
    (by decide) (by decide)
    7 (fun _ _ => [0]) (fun _ _ => [1]) dataC1 "eu.europa.ec.eudiw.pid.1" "pk"
    [("family_name", CBOR.str "Doe"), ("given_name", CBOR.str "Jane"),
     ("birth_date", CBOR.str "1990-01-01"), ("issuance_date", CBOR.str "2024-01-01"),
     ("expiry_date", CBOR.str "2034-01-01")]
    (CBOR.str "2024-01-01") (CBOR.str "2034-01-01") rfl rfl rfl (by decide)

theorem sdjwt_ok_inv (tz : Int) (rnd : Nat → Nat) (jti settings : String) (PID : PIDInput)
    (o : SDJWTOut) (h : sdjwtFormatter tz rnd jti settings PID = Except.ok o) :
    o.demoKeysArgs = (settings, true, sha256Int []) ∧ o.holderSeed = sha256Int [] := by
  unfold sdjwtFormatter at h
  repeat' split at h
  all_goals first
    | (injection h with h; subst h; exact ⟨rfl, rfl⟩)
    | injection h

theorem sha256_empty :
    sha256Int [] =
      0xe3b0c44298fc1c149afbf4c8996fb92427ae41e4649b934ca495991b7852b855 := by
  decide

/-- C10: the seed `sdjwtFormatter` feeds into key generation is
`int(sha256().hexdigest(), 16)` — the SHA-256 of the empty byte string, a
fixed constant — so any two successful calls, whatever their input,
environment or randomness, hand `get_jwk` identical `(settings,
no_randomness, seed)` arguments for the issuer demo keys and the same
seed for the holder key derivation: the key-generation step is
deterministic across all calls. -/
theorem c10_constant_seed_key_generation
    (tz1 tz2 : Int) (rnd1 rnd2 : Nat → Nat) (jti1 jti2 settings : String)
    (PID1 PID2 : PIDInput) (o1 o2 : SDJWTOut)
    (h1 : sdjwtFormatter tz1 rnd1 jti1 settings PID1 = Except.ok o1)
    (h2 : sdjwtFormatter tz2 rnd2 jti2 settings PID2 = Except.ok o2) :
    o1.holderSeed =
      0xe3b0c44298fc1c149afbf4c8996fb92427ae41e4649b934ca495991b7852b855 ∧
    o1.demoKeysArgs = o2.demoKeysArgs ∧
    o1.holderSeed = o2.holderSeed ∧
    o1.demoKeysArgs = (settings, true, o1.holderSeed) := by
  obtain ⟨ha1, hb1⟩ := sdjwt_ok_inv _ _ _ _ _ _ h1
  obtain ⟨ha2, hb2⟩ := sdjwt_ok_inv _ _ _ _ _ _ h2
  refine ⟨?_, ?_, ?_, ?_⟩
  · rw [hb1]; exact sha256_empty
  · rw [ha1, ha2]
  · rw [hb1, hb2]
  · rw [ha1, hb1]

/-- C10 witness: the theorem at two successful concrete runs with
different inputs, curves and randomness. -/
theorem c10_constant_seed_key_generation_instance :
    ∃ o1 o2,
      sdjwtFormatter 0 (fun i => i) "jti-A" "settings" pidSample = Except.ok o1 ∧
      sdjwtFormatter 3600 (fun i => i + 7) "jti-B" "settings" pidSample2 = Except.ok o2 ∧
      o1.holderSeed =
        0xe3b0c44298fc1c149afbf4c8996fb92427ae41e4649b934ca495991b7852b855 ∧
      o1.demoKeysArgs = o2.demoKeysArgs ∧
      o1.holderSeed = o2.holderSeed := by
  have hh1 := sdjwtFormatter_shape 0 (fun i => i) "jti-A" "settings"
    pidNS "optional" pidGroup1 pidGroup2 [] evSample [] ⟨"secp256r1", 11, 22⟩
    "eu.europa.ec.eudiw.pid.1" pidGroup1 "2024-01-01" "2034-01-01" 2024 1 1 2034 1 1
    [("organization_name", PVal.str "Test PID issuer"),
     ("organization_id", PVal.str "EUDI")]
    "Test PID issuer" "P-256" (by decide) rfl rfl rfl rfl rfl rfl rfl rfl
    ("family_name", PVal.str "Doe") _ rfl ("age_over_18", PVal.bool true) _ rfl
  have hh2 := sdjwtFormatter_shape 3600 (fun i => i + 7) "jti-B" "settings"
    pidNS "optional"
    [("family_name", PVal.str "Roe"), ("issuance_date", PVal.str "2025-02-03"),
     ("expiry_date", PVal.str "2035-02-03")]
    [("resident_city", PVal.str "Lisboa")] [] evSample [] ⟨"secp384r1", 33, 44⟩
    "eu.europa.ec.eudiw.pid.1"
    [("family_name", PVal.str "Roe"), ("issuance_date", PVal.str "2025-02-03"),
     ("expiry_date", PVal.str "2035-02-03")]
    "2025-02-03" "2035-02-03" 2025 2 3 2035 2 3
    [("organization_name", PVal.str "Test PID issuer"),
     ("organization_id", PVal.str "EUDI")]
    "Test PID issuer" "P-384" (by decide) rfl rfl rfl rfl rfl rfl rfl rfl
    ("family_name", PVal.str "Roe") _ rfl ("resident_city", PVal.str "Lisboa") _ rfl
  obtain ⟨hc1, hc2, hc3, _⟩ :=
    c10_constant_seed_key_generation 0 3600 (fun i => i) (fun i => i + 7)
      "jti-A" "jti-B" "settings" pidSample pidSample2 _ _ hh1 hh2
  exact ⟨_, _, hh1, hh2, hc1, hc2, hc3⟩

/-- C1 witness: the round-trip theorem at the sample attribute set. -/
theorem c1_mdoc_decode_roundtrip_instance :
    ∃ out, mdocFormatter 7 (fun _ _ => [1, 2]) dataC1 "eu.europa.ec.eudiw.pid.1" "devpk" =
        Except.ok out ∧
      cbor2elems out =
        Except.ok (dataC1.map (fun p => (p.1, p.2.map (fun q => (CBOR.str q.1, q.2))))) :=
  c1_mdoc_decode_roundtrip 7 (fun _ _ => [1, 2]) dataC1 "eu.europa.ec.eudiw.pid.1" "devpk"
    [("family_name", CBOR.str "Doe"), ("given_name", CBOR.str "Jane"),
     ("birth_date", CBOR.str "1990-01-01"), ("issuance_date", CBOR.str "2024-01-01"),
     ("expiry_date", CBOR.str "2034-01-01")]
    (CBOR.str "2024-01-01") (CBOR.str "2034-01-01") rfl rfl rfl
